import Mathlib

/-!
# fc::rpc::websocket_api_connection

A shallow embedding of `src/rpc/websocket_api.cpp`: the three built-in verbs
(`call`, `notice`, `callback`), the fallback, the inbound entry points `on_rpc`,
`on_http`, `on_message`, and the outbound `send_call`, `send_callback`,
`send_notice`.

Effects are explicit.  A computation is a function from the connection's `World`
to an outcome (a value or an `fc::exception`) and the next `World`; the `World`
carries the application state behind `receive_call` / `receive_notice` /
`receive_callback`, the mutable half of `fc::rpc::state`, and a trace of the
observable events in the order in which they happen.

The worker thread is sequentialised: the task handed to `_thread->async` runs to
completion and its `on_complete` continuation runs right after it.  The timing
diagnostics under `LOG_LONG_API` only write to the log and are left out.
-/

namespace fc

/-- Modelled from the spec: the JSON-like value tree (`fc::variant`; its declaration is
not among the sources).  A `double_type` carries the raw bits of the number. -/
inductive variant where
  | null_type
  | bool_type (b : Bool)
  | int64_type (i : Int)
  | uint64_type (n : Nat)
  | double_type (bits : Nat)
  | string_type (s : String)
  | array_type (xs : List variant)
  | object_type (fields : List (String × variant))

/-- The source's `variants`: an ordered sequence of values. -/
abbrev variants := List variant

/-- An `fc::exception`, seen through the two observers the connection uses:
`to_detail_string()` and the conversion `fc::variant(e)`. -/
structure exception where
  to_detail_string : String
  to_variant : variant

namespace rpc

/-- Modelled from the spec: the request envelope `{id?, method, params}`
(`fc::rpc::request`, declared in `fc/rpc/state.hpp`, not among the sources). -/
structure request where
  id : Option Nat
  method : String
  params : variants

/-- Modelled from the spec: the error object `{code, message, data}`
(`fc::rpc::error_object`, declared in `fc/rpc/state.hpp`, not among the sources). -/
structure error_object where
  code : Int
  message : String
  data : variant

/-- Modelled from the spec: the response envelope `{id?, result?, error?}`
(`fc::rpc::response`, declared in `fc/rpc/state.hpp`, not among the sources). -/
structure response where
  id : Option Nat
  result : Option variant
  error : Option error_object

/-- The default constructor `response()`. -/
def response.empty : response := ⟨none, none, none⟩

/-- The constructor `response( id, result )`. -/
def response.of_result (i : Nat) (r : variant) : response := ⟨some i, some r, none⟩

/-- The constructor `response( id, error_object )`. -/
def response.of_error (i : Nat) (e : error_object) : response := ⟨some i, none, some e⟩

/-- What can be observed of a connection, in order of occurrence. -/
inductive Event where
  | receive_call (api_id : Nat) (method_name : String) (args : variants)
  | receive_notice (callback_id : Nat) (args : variants)
  | receive_callback (callback_id : Nat) (args : variants)
  | send_message (text : String)
  | handle_reply (reply : response)
  | wait_for_response (request_id : Nat)

/-- The texts handed to `_connection.send_message`, in order. -/
def sent : List Event → List String
  | [] => []
  | Event.send_message t :: es => t :: sent es
  | _ :: es => sent es

/-- The application entry points reached, in order. -/
def invoked : List Event → List Event
  | [] => []
  | Event.receive_call a m xs :: es => Event.receive_call a m xs :: invoked es
  | Event.receive_notice c xs :: es => Event.receive_notice c xs :: invoked es
  | Event.receive_callback c xs :: es => Event.receive_callback c xs :: invoked es
  | _ :: es => invoked es

/-- The replies handed to `_rpc_state.handle_reply`, in order. -/
def replies : List Event → List response
  | [] => []
  | Event.handle_reply r :: es => r :: replies es
  | _ :: es => replies es

/-- The mutable state of one connection. `app` is the state of the application behind
the `receive_*` entry points; `next_id` and `awaiting` are the call-id counter and the
pending set of `fc::rpc::state`. -/
structure World (σ : Type) where
  app : σ
  next_id : Nat
  awaiting : List (Nat × Option response)
  trace : List Event

/-- A computation on a connection: the outcome and the next world. An exception keeps
the effects that happened before it was raised. -/
def Rpc (σ α : Type) : Type := World σ → Except exception α × World σ

namespace Rpc

/-- Normal return. -/
def ret {σ α : Type} (a : α) : Rpc σ α := fun w => (Except.ok a, w)

/-- Raising an exception. -/
def raise {σ α : Type} (e : exception) : Rpc σ α := fun w => (Except.error e, w)

/-- Sequencing: an exception in the first part skips the second. -/
def andThen {σ α β : Type} (m : Rpc σ α) (f : α → Rpc σ β) : Rpc σ β := fun w =>
  match m w with
  | (Except.ok a, w1) => f a w1
  | (Except.error e, w1) => (Except.error e, w1)

/-- The block `try { m } catch ( const fc::exception& e ) { h e }`. -/
def try_catch {σ α : Type} (m : Rpc σ α) (h : exception → Rpc σ α) : Rpc σ α := fun w =>
  match m w with
  | (Except.ok a, w1) => (Except.ok a, w1)
  | (Except.error e, w1) => h e w1

/-- A pure step that may raise. -/
def lift {σ α : Type} : Except exception α → Rpc σ α
  | Except.ok a => ret a
  | Except.error e => raise e

end Rpc

instance (σ : Type) : Monad (Rpc σ) where
  pure := Rpc.ret
  bind := Rpc.andThen

/-- The collaborators of the connection that are outside `websocket_api.cpp`. -/
structure Env (σ : Type) where
  /-- The application: `api_connection::receive_call`. -/
  receive_call : Nat → String → variants → σ → Except exception variant × σ
  /-- The application: `api_connection::receive_notice`. -/
  receive_notice : Nat → variants → σ → Except exception Unit × σ
  /-- The application: `api_connection::receive_callback`. -/
  receive_callback : Nat → variants → σ → Except exception variant × σ
  /-- The decoder `fc::json::from_string`. -/
  from_string : String → Except exception variant
  /-- The typed decoder `var.as<fc::rpc::request>()`. -/
  as_request : variant → Except exception request
  /-- The typed decoder `var.as<fc::rpc::response>()`. -/
  as_response : variant → Except exception response
  /-- The encoder `fc::json::to_string` on a request. -/
  request_to_string : request → String
  /-- The encoder `fc::json::to_string` on a response. -/
  response_to_string : response → String
  /-- What `variant::as_uint64` does on a value that is not an unsigned number. -/
  as_uint64_other : variant → Except exception Nat
  /-- What `variant::as_string` does on a value that is not a string. -/
  as_string_other : variant → Except exception String
  /-- The exception of a failed `FC_ASSERT`, from the text of its condition. -/
  assert_exception : String → exception
  /-- The exception of a typed accessor used on a value of another kind. -/
  bad_cast_exception : variant → exception
  /-- The exception of a dispatch that finds neither a handler nor a fallback. -/
  method_not_found : String → exception
  /-- The width of `api_id_type`, which is declared outside the sources. -/
  api_id_bits : Nat
  /-- The `response` a failed future hands to its `on_complete` continuation. -/
  failed_result : response
  /-- The variant with which a caller suspended in `wait_for_response` is resumed. -/
  resumed_with : Nat → Except exception variant

end rpc

/-- The test `variant::is_string`. -/
def variant.is_string : variant → Bool
  | variant.string_type _ => true
  | _ => false

/-- The test `variant::is_array`. -/
def variant.is_array : variant → Bool
  | variant.array_type _ => true
  | _ => false

/-- The accessor `variant::get_array`, which raises on a value that is not an array. -/
def variant.get_array {σ : Type} (env : rpc.Env σ) : variant → Except exception variants
  | variant.array_type xs => Except.ok xs
  | v => Except.error (env.bad_cast_exception v)

/-- The accessor `variant::get_object`, which raises on a value that is not an object. -/
def variant.get_object {σ : Type} (env : rpc.Env σ) :
    variant → Except exception (List (String × variant))
  | variant.object_type fields => Except.ok fields
  | v => Except.error (env.bad_cast_exception v)

/-- The test `variant_object::contains`. -/
def variant_object_contains (fields : List (String × variant)) (key : String) : Bool :=
  fields.any (fun p => p.1 == key)

/-- Modelled from the spec: the numeric accessor `variant::as_uint64` (in `variant.cpp`,
not among the sources). An unsigned number yields itself; every other kind is left to
the collaborator `as_uint64_other`. -/
def variant.as_uint64 {σ : Type} (env : rpc.Env σ) : variant → Except exception Nat
  | variant.uint64_type n => Except.ok n
  | v => env.as_uint64_other v

/-- Modelled from the spec: the text accessor `variant::as_string` (in `variant.cpp`,
not among the sources). A string yields itself; every other kind is left to the
collaborator `as_string_other`. -/
def variant.as_string {σ : Type} (env : rpc.Env σ) : variant → Except exception String
  | variant.string_type s => Except.ok s
  | v => env.as_string_other v

namespace rpc

/-- An assignment to a variable of type `api_id_type`. -/
def to_api_id_type {σ : Type} (env : Env σ) (n : Nat) : Nat := n % 2 ^ env.api_id_bits

/-- The macro `FC_ASSERT( cond )`. -/
def FC_ASSERT {σ : Type} (env : Env σ) (cond : Bool) (text : String) : Rpc σ Unit :=
  if cond then Rpc.ret () else Rpc.raise (env.assert_exception text)

/-- The call `this->receive_call( api_id, method_name, args )`. -/
def receive_call {σ : Type} (env : Env σ) (api_id : Nat) (method_name : String)
    (args : variants) : Rpc σ variant := fun w =>
  let r := env.receive_call api_id method_name args w.app
  (r.1, { w with app := r.2, trace := w.trace ++ [Event.receive_call api_id method_name args] })

/-- The call `this->receive_notice( callback_id, args )`. -/
def receive_notice {σ : Type} (env : Env σ) (callback_id : Nat) (args : variants) :
    Rpc σ Unit := fun w =>
  let r := env.receive_notice callback_id args w.app
  (r.1, { w with app := r.2, trace := w.trace ++ [Event.receive_notice callback_id args] })

/-- The call `this->receive_callback( callback_id, args )`. -/
def receive_callback {σ : Type} (env : Env σ) (callback_id : Nat) (args : variants) :
    Rpc σ variant := fun w =>
  let r := env.receive_callback callback_id args w.app
  (r.1, { w with app := r.2, trace := w.trace ++ [Event.receive_callback callback_id args] })

/-- The call `_connection.send_message( text )`. -/
def connection_send_message {σ : Type} (text : String) : Rpc σ Unit := fun w =>
  (Except.ok (), { w with trace := w.trace ++ [Event.send_message text] })

/-- The handler registered under `"call"` (lines 11-29). -/
def call_handler {σ : Type} (env : Env σ) (args : variants) : Rpc σ variant := do
  FC_ASSERT env (args.length == 3 && (args.getD 2 variant.null_type).is_array)
    "args.size() == 3 && args[2].is_array()"
  let api_id ←
    (if (args.getD 0 variant.null_type).is_string then do
      let subargs : variants := [args.getD 0 variant.null_type]
      let subresult ← receive_call env 1 "get_api_by_name" subargs
      let n ← Rpc.lift (subresult.as_uint64 env)
      pure (to_api_id_type env n)
    else do
      let n ← Rpc.lift ((args.getD 0 variant.null_type).as_uint64 env)
      pure (to_api_id_type env n))
  let method_name ← Rpc.lift ((args.getD 1 variant.null_type).as_string env)
  let params ← Rpc.lift ((args.getD 2 variant.null_type).get_array env)
  receive_call env api_id method_name params

/-- The handler registered under `"notice"` (lines 31-36). -/
def notice_handler {σ : Type} (env : Env σ) (args : variants) : Rpc σ variant := do
  FC_ASSERT env (args.length == 2 && (args.getD 1 variant.null_type).is_array)
    "args.size() == 2 && args[1].is_array()"
  let callback_id ← Rpc.lift ((args.getD 0 variant.null_type).as_uint64 env)
  let params ← Rpc.lift ((args.getD 1 variant.null_type).get_array env)
  receive_notice env callback_id params
  pure variant.null_type

/-- The handler registered under `"callback"` (lines 38-43). -/
def callback_handler {σ : Type} (env : Env σ) (args : variants) : Rpc σ variant := do
  FC_ASSERT env (args.length == 2 && (args.getD 1 variant.null_type).is_array)
    "args.size() == 2 && args[1].is_array()"
  let callback_id ← Rpc.lift ((args.getD 0 variant.null_type).as_uint64 env)
  let params ← Rpc.lift ((args.getD 1 variant.null_type).get_array env)
  let _ ← receive_callback env callback_id params
  pure variant.null_type

/-- The handler given to `on_unhandled` (lines 45-48). -/
def unhandled_handler {σ : Type} (env : Env σ) (method_name : String) (args : variants) :
    Rpc σ variant :=
  receive_call env 0 method_name args

/-- Modelled from the spec: the method registry of the Correlation Table
(`fc::rpc::state`, in `state.hpp` / `state.cpp`, not among the sources): handlers by
exact name and one optional fallback. -/
structure state (σ : Type) where
  methods : List (String × (variants → Rpc σ variant))
  unhandled : Option (String → variants → Rpc σ variant)

/-- Modelled from the spec: `register(name, handler)` of the Correlation Table
(`state::add_method`, not among the sources); the last registration under a name wins. -/
def state.add_method {σ : Type} (s : state σ) (name : String)
    (m : variants → Rpc σ variant) : state σ :=
  { s with methods := (name, m) :: s.methods }

/-- Modelled from the spec: `register_fallback(handler)` of the Correlation Table
(`state::on_unhandled`, not among the sources). -/
def state.on_unhandled {σ : Type} (s : state σ)
    (f : String → variants → Rpc σ variant) : state σ :=
  { s with unhandled := some f }

/-- Modelled from the spec: `dispatch(method_name, params)` of the Correlation Table
(`state::local_call`, not among the sources): the exact match first, then the fallback,
then `MethodNotFound`; a failure of the handler is propagated unchanged. -/
def state.local_call {σ : Type} (env : Env σ) (s : state σ) (method_name : String)
    (args : variants) : Rpc σ variant :=
  match s.methods.lookup method_name with
  | some m => m args
  | none =>
    match s.unhandled with
    | some f => f method_name args
    | none => Rpc.raise (env.method_not_found method_name)

/-- Modelled from the spec: `start_call(method, params)` of the Correlation Table
(`state::start_remote_call`, not among the sources): allocates the next id, builds the
request envelope and records a result slot as pending. -/
def state.start_remote_call {σ : Type} (method_name : String) (args : variants) :
    Rpc σ request := fun w =>
  (Except.ok ⟨some w.next_id, method_name, args⟩,
    { w with next_id := w.next_id + 1, awaiting := (w.next_id, none) :: w.awaiting })

/-- Modelled from the spec: `await(id)` of the Correlation Table
(`state::wait_for_response`, not among the sources). The caller is suspended on the slot
of `request_id`; the suspension is recorded and its outcome is the collaborator
`resumed_with`. -/
def state.wait_for_response {σ : Type} (env : Env σ) (request_id : Nat) :
    Rpc σ variant := fun w =>
  (env.resumed_with request_id,
    { w with trace := w.trace ++ [Event.wait_for_response request_id] })

/-- Modelled from the spec: `resolve(response)` of the Correlation Table
(`state::handle_reply`, not among the sources): a reply whose id is pending is delivered
to its slot; an unmatched reply is discarded without error. -/
def state.handle_reply {σ : Type} (reply : response) : Rpc σ Unit := fun w =>
  (Except.ok (),
    { w with
      awaiting := w.awaiting.map
        (fun p => if some p.1 = reply.id then (p.1, some reply) else p),
      trace := w.trace ++ [Event.handle_reply reply] })

/-- The registry built by the constructor (lines 8-55). -/
def websocket_api_connection {σ : Type} (env : Env σ) : state σ :=
  ((((⟨[], none⟩ : state σ).add_method "call" (call_handler env)).add_method "notice"
    (notice_handler env)).add_method "callback" (callback_handler env)).on_unhandled
    (unhandled_handler env)

/-- The error reply of lines 111, 156 and 206:
`response( id, error_object{ 1, e.to_detail_string(), fc::variant(e) } )`. -/
def error_response (id : Nat) (e : exception) : response :=
  response.of_error id ⟨1, e.to_detail_string, e.to_variant⟩

/-- The task given to `_thread->async` (lines 183-189). -/
def async_body {σ : Type} (env : Env σ) (call : request) : Rpc σ response :=
  match call.id with
  | some id => do
    let v ← (websocket_api_connection env).local_call env call.method call.params
    pure (response.of_result id v)
  | none => pure response.empty

/-- The continuation given to `result.on_complete` (lines 191-211), applied to the
response `r` and the exception pointer `e` of the completed future. -/
def on_complete {σ : Type} (env : Env σ) (call : request) ( send_message : Bool)
    (r : response) (e : Option exception) : Rpc σ Unit :=
  match call.id with
  | some id =>
    if send_message then do
      match e with
      | some ex => connection_send_message (env.response_to_string (error_response id ex))
      | none => pure ()
      connection_send_message (env.response_to_string r)
    else pure ()
  | none => pure ()

/-- The function `on_message` (lines 173-216). The future it returns is completed: it
holds the response of the task or the exception the task raised. -/
def on_message {σ : Type} (env : Env σ) (call : request) ( send_message : Bool) :
    Rpc σ (Except exception response) := fun w =>
  match async_body env call w with
  | (Except.ok r, w1) =>
    (Except.ok (Except.ok r), (on_complete env call send_message r none w1).2)
  | (Except.error ex, w1) =>
    (Except.ok (Except.error ex),
      (on_complete env call send_message env.failed_result (some ex) w1).2)

/-- The function `on_rpc` (lines 127-171). -/
def on_rpc {σ : Type} (env : Env σ) (message : String) ( send_message : Bool) :
    Rpc σ Unit :=
  Rpc.try_catch
    (do
      let var ← Rpc.lift (env.from_string message)
      let var_obj ← Rpc.lift (var.get_object env)
      if variant_object_contains var_obj "method" then do
        let call ← Rpc.lift (env.as_request var)
        let optexcept ← Rpc.try_catch
          (do
            let _ ← on_message env call send_message
            pure (none : Option exception))
          (fun e => pure (if call.id.isSome then some e else none))
        match optexcept, call.id with
        | some ex, some id =>
          let reply := env.response_to_string (error_response id ex)
          if send_message then connection_send_message reply else pure ()
        | _, _ => pure ()
      else do
        let reply ← Rpc.lift (env.as_response var)
        state.handle_reply reply)
    (fun _ => pure ())

/-- The function `on_http` (lines 84-125). -/
def on_http {σ : Type} (env : Env σ) (message : String) : Rpc σ String :=
  Rpc.try_catch
    (do
      let var ← Rpc.lift (env.from_string message)
      let var_obj ← Rpc.lift (var.get_object env)
      if variant_object_contains var_obj "method" then do
        let call ← Rpc.lift (env.as_request var)
        let inner ← Rpc.try_catch
          (do
            let result ← on_message env call false
            if call.id.isSome then do
              let r ← Rpc.lift result
              pure (some (env.response_to_string r), (none : Option exception))
            else pure (none, none))
          (fun e => pure (none, if call.id.isSome then some e else none))
        match inner, call.id with
        | (some text, _), _ => pure text
        | (none, some ex), some id => pure (env.response_to_string (error_response id ex))
        | _, _ => pure ""
      else do
        let reply ← Rpc.lift (env.as_response var)
        state.handle_reply reply
        pure "")
    (fun e => pure e.to_detail_string)

/-- The function `send_call` (lines 57-65). -/
def send_call {σ : Type} (env : Env σ) (api_id : Nat) (method_name : String)
    (args : variants) : Rpc σ variant := do
  let request ← state.start_remote_call "call"
    [variant.uint64_type api_id, variant.string_type method_name, variant.array_type args]
  connection_send_message (env.request_to_string request)
  match request.id with
  | some id => state.wait_for_response env id
  | none => Rpc.raise (env.assert_exception "request.id")

/-- The function `send_callback` (lines 67-74). -/
def send_callback {σ : Type} (env : Env σ) (callback_id : Nat) (args : variants) :
    Rpc σ variant := do
  let request ← state.start_remote_call "callback"
    [variant.uint64_type callback_id, variant.array_type args]
  connection_send_message (env.request_to_string request)
  match request.id with
  | some id => state.wait_for_response env id
  | none => Rpc.raise (env.assert_exception "request.id")

/-- The function `send_notice` (lines 76-82). -/
def send_notice {σ : Type} (env : Env σ) (callback_id : Nat) (args : variants) :
    Rpc σ Unit :=
  connection_send_message
    (env.request_to_string
      ⟨none, "notice", [variant.uint64_type callback_id, variant.array_type args]⟩)

/-- Whether a pure step raises. -/
def failed {α : Type} : Except exception α → Bool
  | Except.ok _ => false
  | Except.error _ => true

/-- The params the `call` verb rejects before it reaches the application: the assertion
of line 13 fails, or the first argument is not a string and either its numeric conversion
(line 23) or the text conversion of the second argument (line 27) raises. -/
def call_rejected {σ : Type} (env : Env σ) (args : variants) : Bool :=
  !(args.length == 3 && (args.getD 2 variant.null_type).is_array) ||
    (!(args.getD 0 variant.null_type).is_string &&
      (failed ((args.getD 0 variant.null_type).as_uint64 env) ||
        failed ((args.getD 1 variant.null_type).as_string env)))

/-- The params the `notice` and `callback` verbs reject before they reach the
application: the assertion of lines 33 and 40 fails, or the numeric conversion of the
first argument (lines 34 and 41) raises. -/
def callback_rejected {σ : Type} (env : Env σ) (args : variants) : Bool :=
  !(args.length == 2 && (args.getD 1 variant.null_type).is_array) ||
    failed ((args.getD 0 variant.null_type).as_uint64 env)

/-- A computation that neither sends through the transport nor hands a reply to the
Correlation Table. -/
def Quiet {σ α : Type} (m : Rpc σ α) : Prop :=
  ∀ w : World σ, sent (m w).2.trace = sent w.trace ∧ replies (m w).2.trace = replies w.trace

/-! ## A concrete connection

An application with two apis, used to run the definitions on concrete messages. Its
state counts the invocations it has served. -/

namespace demo

/-- The application method table: `get_api_by_name` on api 1 knows `database` as api 2,
api 2 has block 5 only, and the root api 0 has `about`. -/
def receive_call (api_id : Nat) (method_name : String) (args : variants) (served : Nat) :
    Except exception variant × Nat :=
  if api_id = 1 ∧ method_name = "get_api_by_name" then
    match args with
    | [variant.string_type "database"] => (Except.ok (variant.uint64_type 2), served + 1)
    | _ => (Except.error ⟨"unknown api", variant.null_type⟩, served + 1)
  else if api_id = 2 ∧ method_name = "get_block" then
    match args with
    | [variant.uint64_type 5] => (Except.ok (variant.string_type "block 5"), served + 1)
    | _ => (Except.error ⟨"block not found", variant.string_type "get_block"⟩, served + 1)
  else if api_id = 0 ∧ method_name = "about" then
    (Except.ok (variant.string_type "demo"), served + 1)
  else (Except.error ⟨"unknown method", variant.null_type⟩, served + 1)

/-- Every notice is accepted. -/
def receive_notice (_callback_id : Nat) (_args : variants) (served : Nat) :
    Except exception Unit × Nat :=
  (Except.ok (), served + 1)

/-- Every callback is accepted and answers with `true`. -/
def receive_callback (_callback_id : Nat) (_args : variants) (served : Nat) :
    Except exception variant × Nat :=
  (Except.ok (variant.bool_type true), served + 1)

/-- The text `{"id":7,"method":"call","params":[2,"get_block",[5]]}`. -/
def call_block_5 : String :=
  "\x7b\"id\":7,\"method\":\"call\",\"params\":[2,\"get_block\",[5]]\x7d"

/-- The text `{"id":7,"method":"call","params":[2,"get_block",[6]]}`. -/
def call_block_6 : String :=
  "\x7b\"id\":7,\"method\":\"call\",\"params\":[2,\"get_block\",[6]]\x7d"

/-- The text `{"method":"notice","params":[3,[1]]}`. -/
def notice_without_id : String := "\x7b\"method\":\"notice\",\"params\":[3,[1]]\x7d"

/-- The text `{"id":8,"method":"notice","params":[3,[1]]}`. -/
def notice_with_id : String := "\x7b\"id\":8,\"method\":\"notice\",\"params\":[3,[1]]\x7d"

/-- The text `{"id":9,"method":"about","params":[]}`. -/
def about_9 : String := "\x7b\"id\":9,\"method\":\"about\",\"params\":[]\x7d"

/-- The text `{"id":4,"result":true}`. -/
def reply_4 : String := "\x7b\"id\":4,\"result\":true\x7d"

/-- The text `{"id":` , which is not JSON. -/
def truncated : String := "\x7b\"id\":"

/-- The text `[1,2]`, which is JSON but not an object. -/
def not_an_object : String := "[1,2]"

/-- The decoder on the texts above; every other text is a parse error. -/
def from_string (text : String) : Except exception variant :=
  if text = call_block_5 then
    Except.ok (variant.object_type
      [("id", variant.uint64_type 7), ("method", variant.string_type "call"),
       ("params", variant.array_type
          [variant.uint64_type 2, variant.string_type "get_block",
           variant.array_type [variant.uint64_type 5]])])
  else if text = call_block_6 then
    Except.ok (variant.object_type
      [("id", variant.uint64_type 7), ("method", variant.string_type "call"),
       ("params", variant.array_type
          [variant.uint64_type 2, variant.string_type "get_block",
           variant.array_type [variant.uint64_type 6]])])
  else if text = notice_without_id then
    Except.ok (variant.object_type
      [("method", variant.string_type "notice"),
       ("params", variant.array_type
          [variant.uint64_type 3, variant.array_type [variant.uint64_type 1]])])
  else if text = notice_with_id then
    Except.ok (variant.object_type
      [("id", variant.uint64_type 8), ("method", variant.string_type "notice"),
       ("params", variant.array_type
          [variant.uint64_type 3, variant.array_type [variant.uint64_type 1]])])
  else if text = about_9 then
    Except.ok (variant.object_type
      [("id", variant.uint64_type 9), ("method", variant.string_type "about"),
       ("params", variant.array_type [])])
  else if text = reply_4 then
    Except.ok (variant.object_type
      [("id", variant.uint64_type 4), ("result", variant.bool_type true)])
  else if text = not_an_object then
    Except.ok (variant.array_type [variant.uint64_type 1, variant.uint64_type 2])
  else Except.error ⟨"parse error", variant.string_type text⟩

/-- The optional `id` field of an envelope. -/
def id_field (fields : List (String × variant)) : Except exception (Option Nat) :=
  match fields.lookup "id" with
  | none => Except.ok none
  | some (variant.uint64_type n) => Except.ok (some n)
  | some v => Except.error ⟨"bad id", v⟩

/-- The typed decoder of a request. -/
def as_request : variant → Except exception request
  | variant.object_type fields =>
    match id_field fields, fields.lookup "method", fields.lookup "params" with
    | Except.ok i, some (variant.string_type m), some (variant.array_type ps) =>
      Except.ok ⟨i, m, ps⟩
    | _, _, _ => Except.error ⟨"bad request", variant.object_type fields⟩
  | v => Except.error ⟨"bad request", v⟩

/-- The typed decoder of a response; the error member is not decoded. -/
def as_response : variant → Except exception response
  | variant.object_type fields =>
    match id_field fields with
    | Except.ok i => Except.ok ⟨i, fields.lookup "result", none⟩
    | Except.error e => Except.error e
  | v => Except.error ⟨"bad response", v⟩

/-- A flat rendering of a value. -/
def show_variant : variant → String
  | variant.null_type => "null"
  | variant.bool_type b => if b then "true" else "false"
  | variant.int64_type i => toString i
  | variant.uint64_type n => toString n
  | variant.double_type _ => "<double>"
  | variant.string_type s => "\"" ++ s ++ "\""
  | variant.array_type _ => "[..]"
  | variant.object_type _ => "<object>"

/-- The rendering of the optional id. -/
def show_id : Option Nat → String
  | some n => "\"id\":" ++ toString n
  | none => ""

/-- The encoder of a request. -/
def request_to_string (r : request) : String :=
  "\x7b" ++ show_id r.id ++ (if r.id.isSome then "," else "") ++ "\"method\":\""
    ++ r.method ++ "\",\"params\":" ++ show_variant (variant.array_type r.params) ++ "\x7d"

/-- The encoder of a response. -/
def response_to_string (r : response) : String :=
  "\x7b" ++ show_id r.id ++
    (match r.result with
     | some v => ",\"result\":" ++ show_variant v
     | none => "") ++
    (match r.error with
     | some e => ",\"error\":\x7b\"code\":" ++ toString e.code ++ ",\"message\":\""
        ++ e.message ++ "\",\"data\":" ++ show_variant e.data ++ "\x7d"
     | none => "") ++ "\x7d"

/-- The collaborators of the demo connection. Modelled from the spec: the accessors
are strict, a value of the wrong kind fails. -/
def env : Env Nat where
  receive_call := receive_call
  receive_notice := receive_notice
  receive_callback := receive_callback
  from_string := from_string
  as_request := as_request
  as_response := as_response
  request_to_string := request_to_string
  response_to_string := response_to_string
  as_uint64_other := fun v => Except.error ⟨"bad cast to uint64", v⟩
  as_string_other := fun v => Except.error ⟨"bad cast to string", v⟩
  assert_exception := fun text => ⟨"assert: " ++ text, variant.null_type⟩
  bad_cast_exception := fun v => ⟨"bad cast", v⟩
  method_not_found := fun name => ⟨"unknown method: " ++ name, variant.null_type⟩
  api_id_bits := 32
  failed_result := response.empty
  resumed_with := fun _ => Except.ok variant.null_type

/-- A fresh connection: nothing served, nothing pending, nothing observed. -/
def w0 : World Nat := ⟨0, 1, [], []⟩

end demo


variable {σ : Type}

/-! ## Reasoning about computations -/

@[simp] theorem Rpc.bind_apply {α β : Type} (m : Rpc σ α) (f : α → Rpc σ β) (w : World σ) :
    (m >>= f) w = Rpc.andThen m f w := rfl

@[simp] theorem Rpc.pure_apply {α : Type} (a : α) (w : World σ) :
    (pure a : Rpc σ α) w = (Except.ok a, w) := rfl

theorem sent_append (xs ys : List Event) : sent (xs ++ ys) = sent xs ++ sent ys := by
  induction xs with
  | nil => rfl
  | cons x xs ih => cases x <;> simp [sent, ih]

theorem invoked_append (xs ys : List Event) :
    invoked (xs ++ ys) = invoked xs ++ invoked ys := by
  induction xs with
  | nil => rfl
  | cons x xs ih => cases x <;> simp [invoked, ih]

theorem replies_append (xs ys : List Event) :
    replies (xs ++ ys) = replies xs ++ replies ys := by
  induction xs with
  | nil => rfl
  | cons x xs ih => cases x <;> simp [replies, ih]

theorem Quiet.ret {α : Type} (a : α) : Quiet (Rpc.ret a : Rpc σ α) :=
  fun _ => ⟨rfl, rfl⟩

theorem Quiet.pure {α : Type} (a : α) : Quiet (pure a : Rpc σ α) :=
  fun _ => ⟨rfl, rfl⟩

theorem Quiet.raise {α : Type} (e : exception) : Quiet (Rpc.raise e : Rpc σ α) :=
  fun _ => ⟨rfl, rfl⟩

theorem Quiet.lift {α : Type} (x : Except exception α) : Quiet (Rpc.lift x : Rpc σ α) := by
  cases x
  · exact Quiet.raise _
  · exact Quiet.ret _

theorem Quiet.bind {α β : Type} {m : Rpc σ α} {f : α → Rpc σ β} (hm : Quiet m)
    (hf : ∀ a, Quiet (f a)) : Quiet (m >>= f) := by
  intro w
  have h := hm w
  simp only [Rpc.bind_apply, Rpc.andThen]
  rcases hw : m w with ⟨r, w1⟩
  rw [hw] at h
  cases r with
  | error e => exact h
  | ok a =>
    have h2 := hf a w1
    exact ⟨h2.1.trans h.1, h2.2.trans h.2⟩

theorem Quiet.FC_ASSERT (env : Env σ) (cond : Bool) (text : String) :
    Quiet (FC_ASSERT env cond text) := by
  unfold rpc.FC_ASSERT
  split
  · exact Quiet.ret _
  · exact Quiet.raise _

theorem Quiet.receive_call (env : Env σ) (api_id : Nat) (method_name : String)
    (args : variants) : Quiet (receive_call env api_id method_name args) := by
  intro w
  simp [rpc.receive_call, sent_append, replies_append, sent, replies]

theorem Quiet.receive_notice (env : Env σ) (callback_id : Nat) (args : variants) :
    Quiet (receive_notice env callback_id args) := by
  intro w
  simp [rpc.receive_notice, sent_append, replies_append, sent, replies]

theorem Quiet.receive_callback (env : Env σ) (callback_id : Nat) (args : variants) :
    Quiet (receive_callback env callback_id args) := by
  intro w
  simp [rpc.receive_callback, sent_append, replies_append, sent, replies]

theorem Quiet.call_handler (env : Env σ) (args : variants) :
    Quiet (call_handler env args) := by
  unfold rpc.call_handler
  refine Quiet.bind (Quiet.FC_ASSERT _ _ _) (fun _ => Quiet.bind ?_ (fun _ =>
    Quiet.bind (Quiet.lift _) (fun _ => Quiet.bind (Quiet.lift _) (fun _ =>
      Quiet.receive_call _ _ _ _))))
  split
  · exact Quiet.bind (Quiet.receive_call _ _ _ _) (fun _ =>
      Quiet.bind (Quiet.lift _) (fun _ => Quiet.pure _))
  · exact Quiet.bind (Quiet.lift _) (fun _ => Quiet.pure _)

theorem Quiet.notice_handler (env : Env σ) (args : variants) :
    Quiet (notice_handler env args) := by
  unfold rpc.notice_handler
  exact Quiet.bind (Quiet.FC_ASSERT _ _ _) (fun _ => Quiet.bind (Quiet.lift _) (fun _ =>
    Quiet.bind (Quiet.lift _) (fun _ => Quiet.bind (Quiet.receive_notice _ _ _) (fun _ =>
      Quiet.pure _))))

theorem Quiet.callback_handler (env : Env σ) (args : variants) :
    Quiet (callback_handler env args) := by
  unfold rpc.callback_handler
  exact Quiet.bind (Quiet.FC_ASSERT _ _ _) (fun _ => Quiet.bind (Quiet.lift _) (fun _ =>
    Quiet.bind (Quiet.lift _) (fun _ => Quiet.bind (Quiet.receive_callback _ _ _) (fun _ =>
      Quiet.pure _))))

/-- The registry of the constructor, method by method. -/
theorem local_call_eq (env : Env σ) (method_name : String) (args : variants) :
    (websocket_api_connection env).local_call env method_name args =
      if method_name = "callback" then callback_handler env args
      else if method_name = "notice" then notice_handler env args
      else if method_name = "call" then call_handler env args
      else receive_call env 0 method_name args := by
  simp only [state.local_call, websocket_api_connection, state.add_method,
    state.on_unhandled, List.lookup, unhandled_handler]
  by_cases h1 : method_name = "callback"
  · simp [h1]
  · rw [show (method_name == "callback") = false from beq_eq_false_iff_ne.mpr h1]
    by_cases h2 : method_name = "notice"
    · simp [h2]
    · rw [show (method_name == "notice") = false from beq_eq_false_iff_ne.mpr h2]
      by_cases h3 : method_name = "call"
      · simp [h3]
      · rw [show (method_name == "call") = false from beq_eq_false_iff_ne.mpr h3]
        simp [h1, h2, h3]

/-- Dispatch through the registry of the constructor never sends through the transport
and never touches the Correlation Table. -/
theorem Quiet.local_call (env : Env σ) (method_name : String) (args : variants) :
    Quiet ((websocket_api_connection env).local_call env method_name args) := by
  rw [local_call_eq]
  split
  · exact Quiet.callback_handler _ _
  · split
    · exact Quiet.notice_handler _ _
    · split
      · exact Quiet.call_handler _ _
      · exact Quiet.receive_call _ _ _ _


/-! ## Inbound requests -/

/-- What `on_rpc` does with a request that carries an id, in terms of the outcome of
the dispatch: the task's effects, then the sends of the `on_complete` continuation. -/
theorem on_rpc_with_id (env : Env σ) (message : String) ( send_message : Bool)
    (var : variant) (fields : List (String × variant)) (call : request) (N : Nat)
    (w : World σ)
    (h1 : env.from_string message = Except.ok var)
    (h2 : var.get_object env = Except.ok fields)
    (h3 : variant_object_contains fields "method" = true)
    (h4 : env.as_request var = Except.ok call)
    (h5 : call.id = some N) :
    on_rpc env message send_message w =
      match (websocket_api_connection env).local_call env call.method call.params w with
      | (Except.ok v, w1) =>
        (Except.ok (),
          if send_message then
            { w1 with trace := w1.trace ++
                [Event.send_message (env.response_to_string (response.of_result N v))] }
          else w1)
      | (Except.error f, w1) =>
        (Except.ok (),
          if send_message then
            { w1 with trace := w1.trace ++
                [Event.send_message (env.response_to_string (error_response N f)),
                 Event.send_message (env.response_to_string env.failed_result)] }
          else w1) := by
  rcases hd : (websocket_api_connection env).local_call env call.method call.params w
    with ⟨r, w1⟩
  cases r <;> cases send_message <;>
    simp [on_rpc, Rpc.try_catch, Rpc.andThen, Rpc.lift, Rpc.ret, h1, h2, h3, h4, h5,
      on_message, async_body, hd, on_complete, connection_send_message]

/-- What `on_rpc` does with a request that carries no id: the task returns `response()`
without dispatching and the continuation sends nothing, so the world is untouched. -/
theorem on_rpc_without_id (env : Env σ) (message : String) ( send_message : Bool)
    (var : variant) (fields : List (String × variant)) (call : request) (w : World σ)
    (h1 : env.from_string message = Except.ok var)
    (h2 : var.get_object env = Except.ok fields)
    (h3 : variant_object_contains fields "method" = true)
    (h4 : env.as_request var = Except.ok call)
    (h5 : call.id = none) :
    on_rpc env message send_message w = (Except.ok (), w) := by
  simp [on_rpc, Rpc.try_catch, Rpc.andThen, Rpc.lift, Rpc.ret, h1, h2, h3, h4, h5,
    on_message, async_body, on_complete]

/-- C1: for an inbound request with id `N` whose dispatched handler returns `v`, `on_rpc`
with transmission enabled returns normally, leaves the world the handler produced and
appends one `send_message` to the trace; the texts sent are those sent before followed
by exactly one text, the serialisation of the response with id `N`, result `v` and no
error. -/
theorem on_rpc_success_sends_one_result (env : Env σ) (message : String) (var : variant)
    (fields : List (String × variant)) (call : request) (N : Nat) (v : variant)
    (w w1 : World σ)
    (h1 : env.from_string message = Except.ok var)
    (h2 : var.get_object env = Except.ok fields)
    (h3 : variant_object_contains fields "method" = true)
    (h4 : env.as_request var = Except.ok call)
    (h5 : call.id = some N)
    (h6 : (websocket_api_connection env).local_call env call.method call.params w =
      (Except.ok v, w1)) :
    on_rpc env message true w =
        (Except.ok (), { w1 with trace := w1.trace ++
          [Event.send_message (env.response_to_string ⟨some N, some v, none⟩)] }) ∧
      sent (on_rpc env message true w).2.trace =
        sent w.trace ++ [env.response_to_string ⟨some N, some v, none⟩] := by
  have hq := (Quiet.local_call env call.method call.params w).1
  rw [h6] at hq
  have h := on_rpc_with_id env message true var fields call N w h1 h2 h3 h4 h5
  rw [h6] at h
  simp only [if_true] at h
  refine ⟨h, ?_⟩
  rw [h]
  simp [sent_append, sent, hq, response.of_result]

/-- C1, on the scenario of the specification: the request
`{"id":7,"method":"call","params":[2,"get_block",[5]]}` reaches
`receive_call(2, "get_block", [5])` and one reply `{"id":7,"result":"block 5"}` is sent. -/
theorem on_rpc_success_sends_one_result_witness :
    (on_rpc demo.env demo.call_block_5 true demo.w0).2.trace =
        [Event.receive_call 2 "get_block" [variant.uint64_type 5],
         Event.send_message "\x7b\"id\":7,\"result\":\"block 5\"\x7d"] ∧
      sent (on_rpc demo.env demo.call_block_5 true demo.w0).2.trace =
        sent demo.w0.trace ++
          [demo.env.response_to_string ⟨some 7, some (variant.string_type "block 5"), none⟩] :=
  ⟨rfl, (on_rpc_success_sends_one_result demo.env demo.call_block_5 _ _ _ 7 _ demo.w0 _
    rfl rfl rfl rfl rfl rfl).2⟩

/-- C2, on the failing input: the request `{"id":7,"method":"call","params":[2,"get_block",[6]]}`
makes `receive_call(2, "get_block", [6])` fail, and `on_rpc` with transmission enabled
sends two texts: the error reply with code 1, and then the serialisation of the response
the failed future handed to the continuation. -/
theorem on_rpc_failure_sends_two_messages :
    sent (on_rpc demo.env demo.call_block_6 true demo.w0).2.trace =
        [demo.env.response_to_string
            (response.of_error 7
              ⟨1, "block not found", variant.string_type "get_block"⟩),
         demo.env.response_to_string demo.env.failed_result] ∧
      (sent (on_rpc demo.env demo.call_block_6 true demo.w0).2.trace).length = 2 :=
  ⟨rfl, rfl⟩

/-- C3: an inbound request without an id makes `on_rpc` return normally and send nothing,
for every method name and params, every behaviour of the application and both values of
the `send_message` flag. -/
theorem on_rpc_notice_sends_nothing (env : Env σ) (message : String)
    ( send_message : Bool) (var : variant) (fields : List (String × variant))
    (call : request) (w : World σ)
    (h1 : env.from_string message = Except.ok var)
    (h2 : var.get_object env = Except.ok fields)
    (h3 : variant_object_contains fields "method" = true)
    (h4 : env.as_request var = Except.ok call)
    (h5 : call.id = none) :
    (on_rpc env message send_message w).1 = Except.ok () ∧
      sent (on_rpc env message send_message w).2.trace = sent w.trace := by
  rw [on_rpc_without_id env message send_message var fields call w h1 h2 h3 h4 h5]
  exact ⟨rfl, rfl⟩

/-- C3 on the notice `{"method":"notice","params":[3,[1]]}`. -/
theorem on_rpc_notice_sends_nothing_witness :
    (on_rpc demo.env demo.notice_without_id true demo.w0).1 = Except.ok () ∧
      sent (on_rpc demo.env demo.notice_without_id true demo.w0).2.trace =
        sent demo.w0.trace :=
  on_rpc_notice_sends_nothing demo.env demo.notice_without_id true _ _ _ demo.w0
    rfl rfl rfl rfl rfl

/-- C5, on the failing input: the notice `{"method":"notice","params":[3,[1]]}`, which has
no id, reaches no application entry point at all, while the same notice with id 8
reaches `receive_notice(3, [1])` once. -/
theorem on_rpc_notice_without_id_not_delivered :
    invoked (on_rpc demo.env demo.notice_without_id true demo.w0).2.trace = [] ∧
      invoked (on_rpc demo.env demo.notice_with_id true demo.w0).2.trace =
        [Event.receive_notice 3 [variant.uint64_type 1]] :=
  ⟨rfl, rfl⟩


/-! ## The built-in verbs -/

/-- A number that fits `api_id_type` is not changed by the assignment. -/
theorem to_api_id_type_of_lt (env : Env σ) (n : Nat) (h : n < 2 ^ env.api_id_bits) :
    to_api_id_type env n = n :=
  Nat.mod_eq_of_lt h

/-- C4 as stated fails: on `[4294967298, "get_block", [5]]`, whose first argument is a
number that does not fit the 32 bits of the api id, the `call` verb makes the single
invocation `receive_call(2, "get_block", [5])`, not `receive_call(4294967298, ...)`. -/
theorem call_handler_narrows_api_id :
    (call_handler demo.env
        [variant.uint64_type 4294967298, variant.string_type "get_block",
         variant.array_type [variant.uint64_type 5]] demo.w0).2.trace =
        [Event.receive_call 2 "get_block" [variant.uint64_type 5]] ∧
      (call_handler demo.env
        [variant.uint64_type 4294967298, variant.string_type "get_block",
         variant.array_type [variant.uint64_type 5]] demo.w0).2.trace ≠
        [Event.receive_call 4294967298 "get_block" [variant.uint64_type 5]] := by
  refine ⟨rfl, fun h => ?_⟩
  have h1 : [Event.receive_call 2 "get_block" [variant.uint64_type 5]] =
      [Event.receive_call 4294967298 "get_block" [variant.uint64_type 5]] := h
  injection h1 with h2 _
  injection h2 with h3 _ _
  exact absurd h3 (by decide)

/-- C4, amended: the `call` verb on well-formed params `[a, m, args]`. When `a` is the
string `name`, the bootstrap `receive_call(1, "get_api_by_name", [name])` is invoked once
and first, and when it returns a value whose number is `k` the second and last invocation
is `receive_call(k', m, args)` with `k'` the narrowing of `k` to `api_id_type`. When `a`
is not a string and its number is `n`, the only invocation is `receive_call(n', m, args)`
with `n'` the narrowing of `n` to `api_id_type`. In both cases the outcome of the verb is
the outcome of the real invocation. The narrowing leaves every number that fits
`api_id_type` unchanged. -/
theorem call_handler_dispatch (env : Env σ) (m : String) (args : variants) (w : World σ) :
    (∀ (name : String) (sub : variant) (s1 : σ) (k : Nat),
        env.receive_call 1 "get_api_by_name" [variant.string_type name] w.app =
          (Except.ok sub, s1) →
        sub.as_uint64 env = Except.ok k →
        call_handler env
            [variant.string_type name, variant.string_type m, variant.array_type args] w =
          ((env.receive_call (to_api_id_type env k) m args s1).1,
            { w with
              app := (env.receive_call (to_api_id_type env k) m args s1).2,
              trace := w.trace ++
                [Event.receive_call 1 "get_api_by_name" [variant.string_type name],
                 Event.receive_call (to_api_id_type env k) m args] })) ∧
      (∀ (a : variant) (n : Nat),
        a.is_string = false → a.as_uint64 env = Except.ok n →
        call_handler env [a, variant.string_type m, variant.array_type args] w =
          ((env.receive_call (to_api_id_type env n) m args w.app).1,
            { w with
              app := (env.receive_call (to_api_id_type env n) m args w.app).2,
              trace := w.trace ++ [Event.receive_call (to_api_id_type env n) m args] })) ∧
      (∀ n : Nat, n < 2 ^ env.api_id_bits → to_api_id_type env n = n) := by
  refine ⟨?_, ?_, fun n hn => Nat.mod_eq_of_lt hn⟩
  · intro name sub s1 k hb hk
    simp [call_handler, FC_ASSERT, Rpc.andThen, Rpc.ret, Rpc.lift, variant.is_array,
      variant.is_string, receive_call, hb, hk, variant.as_string, variant.get_array]
  · intro a n ha hn
    simp [call_handler, FC_ASSERT, Rpc.andThen, Rpc.ret, Rpc.lift, variant.is_array, ha,
      receive_call, hn, variant.as_string, variant.get_array]

/-- C4, amended, on the two scenarios of the specification and on a number that does not
fit: `["database","get_block",[5]]` makes the bootstrap call and then
`receive_call(2, "get_block", [5])`; `[2,"get_block",[5]]` makes that invocation only;
both return the block; the api id 2 is left unchanged by the narrowing. -/
theorem call_handler_dispatch_witness :
    call_handler demo.env
        [variant.string_type "database", variant.string_type "get_block",
         variant.array_type [variant.uint64_type 5]] demo.w0 =
      (Except.ok (variant.string_type "block 5"),
        { demo.w0 with
          app := 2,
          trace :=
            [Event.receive_call 1 "get_api_by_name" [variant.string_type "database"],
             Event.receive_call 2 "get_block" [variant.uint64_type 5]] }) ∧
    call_handler demo.env
        [variant.uint64_type 2, variant.string_type "get_block",
         variant.array_type [variant.uint64_type 5]] demo.w0 =
      (Except.ok (variant.string_type "block 5"),
        { demo.w0 with
          app := 1,
          trace := [Event.receive_call 2 "get_block" [variant.uint64_type 5]] }) ∧
    to_api_id_type demo.env 2 = 2 :=
  ⟨(call_handler_dispatch demo.env "get_block" [variant.uint64_type 5] demo.w0).1
      "database" (variant.uint64_type 2) 1 2 rfl rfl,
   (call_handler_dispatch demo.env "get_block" [variant.uint64_type 5] demo.w0).2.1
      (variant.uint64_type 2) 2 rfl rfl,
   (call_handler_dispatch demo.env "get_block" [variant.uint64_type 5] demo.w0).2.2
      2 (by decide)⟩

/-- C6 as stated fails: on `["database", [], []]`, whose second argument is not a string,
the `call` verb fails, but only after the bootstrap `receive_call(1, "get_api_by_name",
["database"])` has been invoked. -/
theorem call_handler_bootstrap_before_method_name_check :
    (∃ e, (call_handler demo.env
        [variant.string_type "database", variant.array_type [], variant.array_type []]
        demo.w0).1 = Except.error e) ∧
      invoked (call_handler demo.env
        [variant.string_type "database", variant.array_type [], variant.array_type []]
        demo.w0).2.trace =
        [Event.receive_call 1 "get_api_by_name" [variant.string_type "database"]] :=
  ⟨⟨_, rfl⟩, rfl⟩

/-- C6, amended: a built-in verb fails with the world untouched, hence before any
application entry point is invoked, on every params sequence rejected up front: for
`call`, not exactly 3 arguments, a third argument that is not an array, or a first
argument that is not a string together with a first argument that has no number or a
second argument that has no text; for `notice` and `callback`, not exactly 2 arguments,
a second argument that is not an array, or a first argument that has no number. For
`call` with a string first argument and an array third argument, the bootstrap
`receive_call(1, "get_api_by_name", [name])` is the first invocation whatever the second
argument is, and the second argument is converted only after it: when the bootstrap
returns a number and the second argument has no text, the verb fails with the failure of
that conversion and with exactly the bootstrap invoked. -/
theorem verbs_reject_before_application (env : Env σ) (args : variants) (w : World σ) :
    (call_rejected env args = true → ∃ e, call_handler env args w = (Except.error e, w)) ∧
      (callback_rejected env args = true →
        ∃ e, notice_handler env args w = (Except.error e, w)) ∧
      (callback_rejected env args = true →
        ∃ e, callback_handler env args w = (Except.error e, w)) ∧
      (∀ (name : String) (a1 : variant) (xs : variants),
        ∃ rest : List Event,
          (call_handler env [variant.string_type name, a1, variant.array_type xs] w).2.trace =
            w.trace ++
              Event.receive_call 1 "get_api_by_name" [variant.string_type name] :: rest) ∧
      (∀ (name : String) (a1 : variant) (xs : variants) (sub : variant) (s1 : σ) (k : Nat)
          (e : exception),
        env.receive_call 1 "get_api_by_name" [variant.string_type name] w.app =
          (Except.ok sub, s1) →
        sub.as_uint64 env = Except.ok k →
        a1.as_string env = Except.error e →
        call_handler env [variant.string_type name, a1, variant.array_type xs] w =
          (Except.error e,
            { w with
              app := s1,
              trace := w.trace ++
                [Event.receive_call 1 "get_api_by_name" [variant.string_type name]] })) := by
  refine ⟨?_, ?_, ?_, ?_, ?_⟩
  · intro h
    unfold call_rejected at h
    by_cases hs : (args.length == 3 && (args.getD 2 variant.null_type).is_array) = true
    · rw [hs] at h
      simp only [Bool.not_true, Bool.false_or, Bool.and_eq_true, Bool.not_eq_true',
        Bool.or_eq_true] at h
      obtain ⟨h0, h12⟩ := h
      rcases hu : (args.getD 0 variant.null_type).as_uint64 env with e | n
      · exact ⟨e, by
          simp only [call_handler, rpc.FC_ASSERT, hs, Rpc.bind_apply, Rpc.andThen, Rpc.ret,
            Rpc.lift, Rpc.raise, h0, hu, if_true, Bool.false_eq_true, if_false]⟩
      · rcases ht : (args.getD 1 variant.null_type).as_string env with e | t
        · exact ⟨e, by
            simp only [call_handler, rpc.FC_ASSERT, hs, Rpc.bind_apply, Rpc.andThen,
              Rpc.ret, Rpc.lift, Rpc.raise, h0, hu, ht, if_true, Bool.false_eq_true,
              if_false, Rpc.pure_apply]⟩
        · rw [hu, ht] at h12
          simp [failed] at h12
    · exact ⟨env.assert_exception "args.size() == 3 && args[2].is_array()", by
        simp only [call_handler, rpc.FC_ASSERT, hs, Rpc.bind_apply, Rpc.andThen, Rpc.raise,
          Bool.false_eq_true, if_false]⟩
  · intro h
    unfold callback_rejected at h
    by_cases hs : (args.length == 2 && (args.getD 1 variant.null_type).is_array) = true
    · rw [hs] at h
      rcases hu : (args.getD 0 variant.null_type).as_uint64 env with e | n
      · exact ⟨e, by
          simp only [notice_handler, rpc.FC_ASSERT, hs, Rpc.bind_apply, Rpc.andThen,
            Rpc.ret, Rpc.lift, Rpc.raise, hu, if_true]⟩
      · rw [hu] at h
        simp [failed] at h
    · exact ⟨env.assert_exception "args.size() == 2 && args[1].is_array()", by
        simp only [notice_handler, rpc.FC_ASSERT, hs, Rpc.bind_apply, Rpc.andThen, Rpc.raise,
          Bool.false_eq_true, if_false]⟩
  · intro h
    unfold callback_rejected at h
    by_cases hs : (args.length == 2 && (args.getD 1 variant.null_type).is_array) = true
    · rw [hs] at h
      rcases hu : (args.getD 0 variant.null_type).as_uint64 env with e | n
      · exact ⟨e, by
          simp only [callback_handler, rpc.FC_ASSERT, hs, Rpc.bind_apply, Rpc.andThen,
            Rpc.ret, Rpc.lift, Rpc.raise, hu, if_true]⟩
      · rw [hu] at h
        simp [failed] at h
    · exact ⟨env.assert_exception "args.size() == 2 && args[1].is_array()", by
        simp only [callback_handler, rpc.FC_ASSERT, hs, Rpc.bind_apply, Rpc.andThen, Rpc.raise,
          Bool.false_eq_true, if_false]⟩

  · intro name a1 xs
    rcases hb : env.receive_call 1 "get_api_by_name" [variant.string_type name] w.app
      with ⟨r, s1⟩
    cases r with
    | error e =>
      exact ⟨[], by
        simp [call_handler, FC_ASSERT, Rpc.andThen, Rpc.ret, Rpc.lift, variant.is_array,
          variant.is_string, receive_call, hb]⟩
    | ok sub =>
      rcases hk : sub.as_uint64 env with e | k
      · exact ⟨[], by
          simp [call_handler, FC_ASSERT, Rpc.andThen, Rpc.ret, Rpc.lift, Rpc.raise,
            variant.is_array, variant.is_string, receive_call, hb, hk]⟩
      · rcases ht : a1.as_string env with e | t
        · exact ⟨[], by
            simp [call_handler, FC_ASSERT, Rpc.andThen, Rpc.ret, Rpc.lift, Rpc.raise,
              variant.is_array, variant.is_string, receive_call, hb, hk, ht]⟩
        · exact ⟨[Event.receive_call (to_api_id_type env k) t xs], by
            simp [call_handler, FC_ASSERT, Rpc.andThen, Rpc.ret, Rpc.lift, Rpc.raise,
              variant.is_array, variant.is_string, receive_call, hb, hk, ht,
              variant.get_array]⟩
  · intro name a1 xs sub s1 k e hb hk ht
    simp [call_handler, FC_ASSERT, Rpc.andThen, Rpc.ret, Rpc.lift, Rpc.raise,
      variant.is_array, variant.is_string, receive_call, hb, hk, ht]

/-- C6, amended, on `[2, "get_block"]` (two arguments) for `call`, on `[3]` (one
argument) for `notice` and `callback`, and on `["database", [], []]` for `call`, which
fails on its method name with the bootstrap already invoked. -/
theorem verbs_reject_before_application_witness :
    (∃ e, call_handler demo.env [variant.uint64_type 2, variant.string_type "get_block"]
        demo.w0 = (Except.error e, demo.w0)) ∧
      (∃ e, notice_handler demo.env [variant.uint64_type 3] demo.w0 =
        (Except.error e, demo.w0)) ∧
      (∃ e, callback_handler demo.env [variant.uint64_type 3] demo.w0 =
        (Except.error e, demo.w0)) ∧
      call_handler demo.env
          [variant.string_type "database", variant.array_type [], variant.array_type []]
          demo.w0 =
        (Except.error ⟨"bad cast to string", variant.array_type []⟩,
          { demo.w0 with
            app := 1,
            trace :=
              [Event.receive_call 1 "get_api_by_name" [variant.string_type "database"]] }) :=
  ⟨(verbs_reject_before_application demo.env
      [variant.uint64_type 2, variant.string_type "get_block"] demo.w0).1 rfl,
   (verbs_reject_before_application demo.env [variant.uint64_type 3] demo.w0).2.1 rfl,
   (verbs_reject_before_application demo.env [variant.uint64_type 3] demo.w0).2.2.1 rfl,
   (verbs_reject_before_application demo.env [] demo.w0).2.2.2.2 "database"
      (variant.array_type []) [] (variant.uint64_type 2) 1 2 _ rfl rfl rfl⟩

/-! ## The HTTP entry point, decoding failures, the fallback, outbound calls -/

/-- C7: `on_http` on a decoded message. For a request with id `N` it returns the
serialised reply and sends nothing: the response with id `N` and result `v` when the
handler returns `v`, the response with id `N` and error `{1, detail of f, rendering of f}`
when the handler fails with `f`. For a request without an id it returns the empty string
and leaves the world untouched. For an inbound reply it returns the empty string and
sends nothing. -/
theorem on_http_returns_reply (env : Env σ) (message : String) (var : variant)
    (fields : List (String × variant)) (w : World σ)
    (h1 : env.from_string message = Except.ok var)
    (h2 : var.get_object env = Except.ok fields) :
    (∀ call : request, variant_object_contains fields "method" = true →
        env.as_request var = Except.ok call →
        (∀ (N : Nat) (v : variant) (w1 : World σ), call.id = some N →
          (websocket_api_connection env).local_call env call.method call.params w =
            (Except.ok v, w1) →
          on_http env message w =
              (Except.ok (env.response_to_string ⟨some N, some v, none⟩), w1) ∧
            sent w1.trace = sent w.trace) ∧
        (∀ (N : Nat) (f : exception) (w1 : World σ), call.id = some N →
          (websocket_api_connection env).local_call env call.method call.params w =
            (Except.error f, w1) →
          on_http env message w =
              (Except.ok (env.response_to_string
                ⟨some N, none, some ⟨1, f.to_detail_string, f.to_variant⟩⟩), w1) ∧
            sent w1.trace = sent w.trace) ∧
        (call.id = none → on_http env message w = (Except.ok "", w))) ∧
      (∀ reply : response, variant_object_contains fields "method" = false →
        env.as_response var = Except.ok reply →
        (on_http env message w).1 = Except.ok "" ∧
          sent (on_http env message w).2.trace = sent w.trace) := by
  refine ⟨fun call h3 h4 => ⟨?_, ?_, ?_⟩, ?_⟩
  · intro N v w1 h5 h6
    have hq := (Quiet.local_call env call.method call.params w).1
    rw [h6] at hq
    refine ⟨?_, hq⟩
    simp [on_http, Rpc.try_catch, Rpc.andThen, Rpc.lift, Rpc.ret, h1, h2, h3, h4, h5,
      on_message, async_body, h6, on_complete, response.of_result]
  · intro N f w1 h5 h6
    have hq := (Quiet.local_call env call.method call.params w).1
    rw [h6] at hq
    refine ⟨?_, hq⟩
    simp [on_http, Rpc.try_catch, Rpc.andThen, Rpc.lift, Rpc.ret, Rpc.raise, h1, h2, h3,
      h4, h5, on_message, async_body, h6, on_complete, error_response, response.of_error]
  · intro h5
    simp [on_http, Rpc.try_catch, Rpc.andThen, Rpc.lift, Rpc.ret, h1, h2, h3, h4, h5,
      on_message, async_body, on_complete]
  · intro reply h3 h4
    simp [on_http, Rpc.try_catch, Rpc.andThen, Rpc.lift, Rpc.ret, h1, h2, h3, h4,
      state.handle_reply, sent_append, sent]

/-- C7 on four messages: the call for block 5 (success), the call for block 6 (failure),
the notice without an id, and the reply `{"id":4,"result":true}`. -/
theorem on_http_returns_reply_witness :
    (on_http demo.env demo.call_block_5 demo.w0).1 =
        Except.ok "\x7b\"id\":7,\"result\":\"block 5\"\x7d" ∧
      (on_http demo.env demo.call_block_6 demo.w0).1 =
        Except.ok (demo.env.response_to_string
          ⟨some 7, none, some ⟨1, "block not found", variant.string_type "get_block"⟩⟩) ∧
      on_http demo.env demo.notice_without_id demo.w0 = (Except.ok "", demo.w0) ∧
      (on_http demo.env demo.reply_4 demo.w0).1 = Except.ok "" :=
  ⟨congrArg Prod.fst
      (((on_http_returns_reply demo.env demo.call_block_5 _ _ demo.w0 rfl rfl).1 _ rfl
        rfl).1 7 (variant.string_type "block 5") _ rfl rfl).1,
   congrArg Prod.fst
      (((on_http_returns_reply demo.env demo.call_block_6 _ _ demo.w0 rfl rfl).1 _ rfl
        rfl).2.1 7 ⟨"block not found", variant.string_type "get_block"⟩ _ rfl rfl).1,
   ((on_http_returns_reply demo.env demo.notice_without_id _ _ demo.w0 rfl rfl).1 _ rfl
      rfl).2.2 rfl,
   ((on_http_returns_reply demo.env demo.reply_4 _ _ demo.w0 rfl rfl).2 _ rfl rfl).1⟩

/-- C8: when decoding the text fails with `f` (the text is not JSON, its top-level value
is not an object, or the object decodes neither as a request nor as a response), `on_rpc`
returns normally with the world untouched: no handler, no `handle_reply`, no send.
`on_http` returns the detail string of `f`, also with the world untouched. A message
processed afterwards is therefore processed as if the malformed one had never arrived. -/
theorem decoding_failure_is_contained (env : Env σ) (message : String) (f : exception)
    (w : World σ)
    (h : env.from_string message = Except.error f ∨
      ∃ var, env.from_string message = Except.ok var ∧
        (var.get_object env = Except.error f ∨
          ∃ fields, var.get_object env = Except.ok fields ∧
            ((variant_object_contains fields "method" = true ∧
                env.as_request var = Except.error f) ∨
              (variant_object_contains fields "method" = false ∧
                env.as_response var = Except.error f)))) :
    (∀ send_message : Bool, on_rpc env message send_message w = (Except.ok (), w)) ∧
      on_http env message w = (Except.ok f.to_detail_string, w) ∧
      (∀ (next : String) (send_message send_next : Bool),
        on_rpc env next send_next (on_rpc env message send_message w).2 =
          on_rpc env next send_next w) ∧
      (∀ (next : String) (send_next : Bool),
        on_rpc env next send_next (on_http env message w).2 =
          on_rpc env next send_next w) := by
  have hrpc : ∀ send_message : Bool, on_rpc env message send_message w = (Except.ok (), w) := by
    intro send_message
    rcases h with h1 | ⟨var, h1, h2 | ⟨fields, h2, ⟨h3, h4⟩ | ⟨h3, h4⟩⟩⟩ <;>
      simp [on_rpc, Rpc.try_catch, Rpc.andThen, Rpc.lift, Rpc.ret, Rpc.raise, *]
  have hhttp : on_http env message w = (Except.ok f.to_detail_string, w) := by
    rcases h with h1 | ⟨var, h1, h2 | ⟨fields, h2, ⟨h3, h4⟩ | ⟨h3, h4⟩⟩⟩ <;>
      simp [on_http, Rpc.try_catch, Rpc.andThen, Rpc.lift, Rpc.ret, Rpc.raise, *]
  refine ⟨hrpc, hhttp, ?_, ?_⟩
  · intro next send_message send_next
    rw [hrpc]
  · intro next send_next
    rw [hhttp]

/-- C8 on the truncated text `{"id":`, followed by the call for block 5. -/
theorem decoding_failure_is_contained_witness :
    on_rpc demo.env demo.truncated true demo.w0 = (Except.ok (), demo.w0) ∧
      on_http demo.env demo.truncated demo.w0 = (Except.ok "parse error", demo.w0) ∧
      on_rpc demo.env demo.call_block_5 true
          (on_rpc demo.env demo.truncated true demo.w0).2 =
        on_rpc demo.env demo.call_block_5 true demo.w0 :=
  have h := decoding_failure_is_contained demo.env demo.truncated
    ⟨"parse error", variant.string_type demo.truncated⟩ demo.w0 (Or.inl rfl)
  ⟨h.1 true, h.2.1, h.2.2.1 demo.call_block_5 true true⟩

/-- C9: for an inbound request with id `N` whose method name is none of `call`, `notice`,
`callback`, dispatch is exactly the invocation `receive_call(0, method, params)`, with the
name and the params unchanged; and when that invocation returns `v`, `on_rpc` sends the
response with id `N` and result `v` to the requester. -/
theorem unhandled_method_goes_to_api_0 (env : Env σ) (message : String) (var : variant)
    (fields : List (String × variant)) (call : request) (N : Nat) (w : World σ)
    (h1 : env.from_string message = Except.ok var)
    (h2 : var.get_object env = Except.ok fields)
    (h3 : variant_object_contains fields "method" = true)
    (h4 : env.as_request var = Except.ok call)
    (h5 : call.id = some N)
    (hm : call.method ≠ "call" ∧ call.method ≠ "notice" ∧ call.method ≠ "callback") :
    (websocket_api_connection env).local_call env call.method call.params w =
        ((env.receive_call 0 call.method call.params w.app).1,
          { w with
            app := (env.receive_call 0 call.method call.params w.app).2,
            trace := w.trace ++ [Event.receive_call 0 call.method call.params] }) ∧
      (∀ (v : variant) (s : σ),
        env.receive_call 0 call.method call.params w.app = (Except.ok v, s) →
        on_rpc env message true w =
          (Except.ok (),
            { w with
              app := s,
              trace := w.trace ++
                [Event.receive_call 0 call.method call.params,
                 Event.send_message (env.response_to_string ⟨some N, some v, none⟩)] })) := by
  have hd : (websocket_api_connection env).local_call env call.method call.params w =
      ((env.receive_call 0 call.method call.params w.app).1,
        { w with
          app := (env.receive_call 0 call.method call.params w.app).2,
          trace := w.trace ++ [Event.receive_call 0 call.method call.params] }) := by
    rw [local_call_eq, if_neg hm.2.2, if_neg hm.2.1, if_neg hm.1]
    rfl
  refine ⟨hd, ?_⟩
  intro v s hv
  have h := on_rpc_with_id env message true var fields call N w h1 h2 h3 h4 h5
  rw [hd, hv] at h
  rw [h]
  simp [response.of_result]

/-- C9 on the request `{"id":9,"method":"about","params":[]}`. -/
theorem unhandled_method_goes_to_api_0_witness :
    on_rpc demo.env demo.about_9 true demo.w0 =
      (Except.ok (),
        { demo.w0 with
          app := 1,
          trace :=
            [Event.receive_call 0 "about" [],
             Event.send_message "\x7b\"id\":9,\"result\":\"demo\"\x7d"] }) :=
  (unhandled_method_goes_to_api_0 demo.env demo.about_9 _ _ ⟨some 9, "about", []⟩ 9
    demo.w0 rfl rfl rfl rfl rfl (by decide)).2 (variant.string_type "demo") 1 rfl

/-- C10: `send_call` transmits exactly one text, the serialisation of the envelope with
the next call id, method `call` and params `[a, m, args]`, and then waits for the
response to that id; the `call` verb given these params accepts them and makes the one
invocation `receive_call(a, m, args)`, with no bootstrap call. `send_callback` transmits
exactly one text, the envelope with the next call id, method `callback` and params
`[c, args]`, and then waits for that id; the `callback` verb given these params accepts
them and makes the one invocation `receive_callback(c, args)`. -/
theorem send_envelopes_round_trip (env : Env σ) (args : variants) (w peer : World σ) :
    (∀ (a : Nat) (m : String), a < 2 ^ env.api_id_bits →
        (send_call env a m args w).2.trace =
            w.trace ++
              [Event.send_message (env.request_to_string
                ⟨some w.next_id, "call",
                  [variant.uint64_type a, variant.string_type m, variant.array_type args]⟩),
               Event.wait_for_response w.next_id] ∧
          call_handler env
              [variant.uint64_type a, variant.string_type m, variant.array_type args] peer =
            ((env.receive_call a m args peer.app).1,
              { peer with
                app := (env.receive_call a m args peer.app).2,
                trace := peer.trace ++ [Event.receive_call a m args] })) ∧
      (∀ c : Nat,
        (send_callback env c args w).2.trace =
            w.trace ++
              [Event.send_message (env.request_to_string
                ⟨some w.next_id, "callback",
                  [variant.uint64_type c, variant.array_type args]⟩),
               Event.wait_for_response w.next_id] ∧
          (callback_handler env [variant.uint64_type c, variant.array_type args] peer).2 =
            { peer with
              app := (env.receive_callback c args peer.app).2,
              trace := peer.trace ++ [Event.receive_callback c args] } ∧
          (callback_handler env [variant.uint64_type c, variant.array_type args] peer).1 =
            (env.receive_callback c args peer.app).1.map (fun _ => variant.null_type)) := by
  refine ⟨fun a m ha => ⟨?_, ?_⟩, fun c => ⟨?_, ?_, ?_⟩⟩
  · simp [send_call, state.start_remote_call, connection_send_message,
      state.wait_for_response, Rpc.andThen]
  · simp [call_handler, FC_ASSERT, Rpc.andThen, Rpc.ret, Rpc.lift, variant.is_array,
      variant.is_string, receive_call, variant.as_uint64, to_api_id_type_of_lt env a ha,
      variant.as_string, variant.get_array]
  · simp [send_callback, state.start_remote_call, connection_send_message,
      state.wait_for_response, Rpc.andThen]
  · rcases hr : env.receive_callback c args peer.app with ⟨r, s⟩
    cases r <;>
      simp [callback_handler, FC_ASSERT, Rpc.andThen, Rpc.ret, Rpc.lift, variant.is_array,
        receive_callback, variant.as_uint64, variant.get_array, hr]
  · rcases hr : env.receive_callback c args peer.app with ⟨r, s⟩
    cases r <;>
      simp [callback_handler, FC_ASSERT, Rpc.andThen, Rpc.ret, Rpc.lift, variant.is_array,
        receive_callback, variant.as_uint64, variant.get_array, hr, Except.map]

/-- C10 on `send_call(2, "get_block", [5])` and `send_callback(3, [1])` from a fresh
connection: each envelope carries id 1 and the caller waits for id 1; the peer's verbs
invoke `receive_call(2, "get_block", [5])` and `receive_callback(3, [1])`. -/
theorem send_envelopes_round_trip_witness :
    ((send_call demo.env 2 "get_block" [variant.uint64_type 5] demo.w0).2.trace =
        [Event.send_message (demo.env.request_to_string
          ⟨some 1, "call",
            [variant.uint64_type 2, variant.string_type "get_block",
             variant.array_type [variant.uint64_type 5]]⟩),
         Event.wait_for_response 1] ∧
      call_handler demo.env
          [variant.uint64_type 2, variant.string_type "get_block",
           variant.array_type [variant.uint64_type 5]] demo.w0 =
        (Except.ok (variant.string_type "block 5"),
          { demo.w0 with
            app := 1,
            trace := [Event.receive_call 2 "get_block" [variant.uint64_type 5]] })) ∧
      (send_callback demo.env 3 [variant.uint64_type 1] demo.w0).2.trace =
        [Event.send_message (demo.env.request_to_string
          ⟨some 1, "callback",
            [variant.uint64_type 3, variant.array_type [variant.uint64_type 1]]⟩),
         Event.wait_for_response 1] ∧
      (callback_handler demo.env
          [variant.uint64_type 3, variant.array_type [variant.uint64_type 1]] demo.w0).2 =
        { demo.w0 with
          app := 1,
          trace := [Event.receive_callback 3 [variant.uint64_type 1]] } :=
  ⟨(send_envelopes_round_trip demo.env [variant.uint64_type 5] demo.w0 demo.w0).1 2
      "get_block" (by decide),
   ((send_envelopes_round_trip demo.env [variant.uint64_type 1] demo.w0 demo.w0).2 3).1,
   ((send_envelopes_round_trip demo.env [variant.uint64_type 1] demo.w0 demo.w0).2 3).2.1⟩

end rpc

end fc
